import Mathlib

/-
  Verification development for the LoomIQ task scheduling and multi-agent
  collaboration engine.

  Shallow embedding of:
  - src/unnamed/part_006  (orchestration/task-orchestrator.ts, DB-backed TaskOrchestrator)
  - src/src/collaboration/collaboration-manager.ts (CollaborationManager)
  - src/unnamed/part_012  (database/repositories/TaskRepository.ts, findPendingTasks)
  - src/unnamed/part_005  (older in-memory TaskOrchestrator; consulted for the
    priorityOrder map used to interpret the pending-task query ordering)

  Conventions of the embedding:
  - machine times (Date.now(), timestamps) are Nat milliseconds threaded as an
    explicit clock; the wall time of each outbound agent call is supplied by the
    environment;
  - the persistence collaborator (db.tasks) is embedded as a List Task inside the
    orchestrator state, with updateTaskStatus mirroring the repository method;
  - thrown JS exceptions are Except.error values; the JS finally blocks are
    embedded by applying the cleanup on every branch of the result;
  - agent payloads (response.result) are Strings; task metadata and the
    assigned-agent foreign-key bookkeeping are not modelled (no claim reads them);
  - the agent registry and the remote agents are external collaborators and are
    supplied by an Env record of functions (scores, handles, per-attempt and
    per-call responses).
-/

set_option autoImplicit false

namespace LoomIQ

/-- Task priority enum from the Task interface. -/
inductive Priority
  | critical
  | high
  | medium
  | low
deriving DecidableEq, Repr

/-- Task type enum from the Task interface. -/
inductive TaskType
  | implementation
  | design
  | test
  | review
  | deployment
  | requirement
deriving DecidableEq, Repr

/-- Task lifecycle status values observed in the orchestrator. -/
inductive TaskStatus
  | pending
  | assigned
  | in_progress
  | completed
  | failed
deriving DecidableEq, Repr

/-- Collaboration strategy values as produced at runtime by the orchestrator.
The manager declares only sequential, parallel and consensus in its
CollaborationStrategy type; determineCollaborationStrategy in part_006 also
produces the value hierarchical at runtime, so the embedding carries all four. -/
inductive Strategy
  | sequential
  | parallel
  | consensus
  | hierarchical
deriving DecidableEq, Repr

instance : BEq Priority := ⟨fun a b => decide (a = b)⟩
instance : BEq TaskType := ⟨fun a b => decide (a = b)⟩
instance : BEq TaskStatus := ⟨fun a b => decide (a = b)⟩
instance : BEq Strategy := ⟨fun a b => decide (a = b)⟩

/-- One entry of the CollaborationResult list (collaboration-manager.ts). -/
structure CollabResult where
  agentId : String
  agentName : String
  output : String
  duration : Nat
  timestamp : Nat
deriving DecidableEq, Repr

/-- The object built by TaskOrchestrator.synthesizeCollaborationResults.
Outputs are strings in this embedding, so the combinedOutput object-merge
accumulator of the source always stays empty and is omitted. -/
structure Synthesis where
  summary : String
  results : List CollabResult
  agentCount : Nat
  totalDuration : Nat
deriving DecidableEq, Repr

/-- A task output payload: a single-agent result string, or the synthesized
collaboration object. -/
inductive TaskOutput
  | agentResult (s : String)
  | synthesized (syn : Synthesis)
deriving DecidableEq, Repr

/-- The Task record (task.interface.ts fields read by the orchestrator).
Metadata is not modelled. -/
structure Task where
  id : String
  organizationId : Option String := none
  projectId : Option String := none
  type : TaskType := .implementation
  title : String := ""
  description : String := ""
  dependencies : List String := []
  status : TaskStatus := .pending
  priority : Priority := .medium
  createdAt : Nat := 0
  updatedAt : Nat := 0
  startedAt : Option Nat := none
  completedAt : Option Nat := none
  actualDuration : Option Nat := none
  output : Option TaskOutput := none
  error : Option String := none
deriving DecidableEq, Repr

/-- Static agent configuration as read by the orchestrator (config.id etc.). -/
structure AgentCfg where
  id : String
  name : String
  provider : String := ""
deriving DecidableEq, Repr

/-- One entry of the ranked list returned by AgentRegistry.findBestAgentForTask. -/
structure AgentScore where
  agentId : String
  score : Nat := 0
deriving DecidableEq, Repr

/-- The response shape of the Agent Capability Interface:
execute(request) resolves to { success, result | error, duration }. -/
structure AgentResp where
  success : Bool
  result : String := ""
  error : Option String := none
  duration : Option Nat := none
deriving DecidableEq, Repr

/-- JS String.prototype.toLowerCase restricted to ASCII, which covers every
keyword the heuristics compare against. -/
def charToLower (c : Char) : Char :=
  if 65 ≤ c.toNat ∧ c.toNat ≤ 90 then Char.ofNat (c.toNat + 32) else c

/-- JS s.toLowerCase() (ASCII). -/
def jsToLower (s : String) : String := ⟨s.data.map charToLower⟩

/-- JS substring check: s.includes(sub), on char lists. -/
def prefixAt : List Char → List Char → Bool
  | [], _ => true
  | _ :: _, [] => false
  | c :: cs, d :: ds => c == d && prefixAt cs ds

/-- JS substring check helper over the suffixes of the second argument. -/
def subSearch (sub : List Char) : List Char → Bool
  | [] => prefixAt sub []
  | l@(_ :: rest) => prefixAt sub l || subSearch sub rest

/-- JS s.includes(sub). -/
def containsSub (s sub : String) : Bool := subSearch sub.data s.data

/-- Retry configuration from part_006: maxAttempts. -/
def retryMaxAttempts : Nat := 3

/-- retryDelay(attempt) = min(baseDelayMs * backoffFactor ^ attempt, maxDelayMs)
with baseDelayMs = 1000, backoffFactor = 2, maxDelayMs = 30000 (part_006). -/
def retryDelay (attempt : Nat) : Nat := min (1000 * 2 ^ attempt) 30000

/-- JS truthiness fallback for strings: s || d (undefined and the empty string
both fall back to the default). -/
def jsOrStr (s : Option String) (d : String) : String :=
  match s with
  | some v => if v = "" then d else v
  | none => d

/-- TaskOrchestrator.requiresCollaboration (part_006 lines 377-389). -/
def requiresCollaboration (task : Task) : Bool :=
  let keywords : List String :=
    ["review", "validate", "compare", "multiple perspectives",
     "complex", "comprehensive", "end-to-end", "integrate",
     "coordinate", "collaborate", "multiple agents", "cross-functional",
     "full stack"]
  let desc := jsToLower task.description
  let hasKeyword := keywords.any (fun k => containsSub desc k)
  let isHighPriority := task.priority == .critical || (task.priority == .high && hasKeyword)
  isHighPriority || hasKeyword

/-- TaskOrchestrator.determineCollaborationStrategy (part_006 lines 391-397). -/
def determineCollaborationStrategy (task : Task) : Strategy :=
  let desc := jsToLower task.description
  if task.type == .design || containsSub desc "architecture" then .consensus
  else if containsSub desc "frontend" && containsSub desc "backend" then .parallel
  else if task.priority == .critical then .hierarchical
  else .sequential

/-- Priority rank used to interpret the pending-task ordering.
Modelled from the spec: the entities/Task column definition for priority is not
under src, so the database ORDER BY "task.priority ASC" semantics are modelled
from the spec ordering (critical before high before medium before low); the map
coincides with the explicit priorityOrder map of part_005 (critical 0, high 1,
medium 2, low 3). -/
def priorityOrder : Priority → Nat
  | .critical => 0
  | .high => 1
  | .medium => 2
  | .low => 3

/-- The ordering realised by ORDER BY priority ASC, createdAt ASC. -/
def taskLE (a b : Task) : Prop :=
  priorityOrder a.priority < priorityOrder b.priority ∨
    (priorityOrder a.priority = priorityOrder b.priority ∧ a.createdAt ≤ b.createdAt)

instance : DecidableRel taskLE := fun a b => by
  unfold taskLE
  exact inferInstance

instance : IsTotal Task taskLE where
  total a b := by
    unfold taskLE
    rcases Nat.lt_trichotomy (priorityOrder a.priority) (priorityOrder b.priority) with h | h | h
    · exact Or.inl (Or.inl h)
    · rcases Nat.le_total a.createdAt b.createdAt with h2 | h2
      · exact Or.inl (Or.inr ⟨h, h2⟩)
      · exact Or.inr (Or.inr ⟨h.symm, h2⟩)
    · exact Or.inr (Or.inl h)

instance : IsTrans Task taskLE where
  trans a b c hab hbc := by
    unfold taskLE at *
    rcases hab with h1 | ⟨h1, h1c⟩ <;> rcases hbc with h2 | ⟨h2, h2c⟩
    · exact Or.inl (h1.trans h2)
    · exact Or.inl (h2 ▸ h1)
    · exact Or.inl (h1 ▸ h2)
    · exact Or.inr ⟨h1.trans h2, h1c.trans h2c⟩

/-- TaskRepository.findPendingTasks (part_012 lines 42-57): the rows with
status pending, ordered by priority ASC then createdAt ASC. -/
def findPendingTasks (tasks : List Task) : List Task :=
  List.insertionSort taskLE (tasks.filter (fun t => t.status == .pending))

/-! ## JSON serialization of string payloads

JSON.stringify(value, null, 2) applied to a string or null primitive, as used
by the prompt builders of collaboration-manager.ts (indentation does not affect
primitives). -/

/-- One hex digit, lowercase, as emitted by JSON escape sequences. -/
def hexDigit (n : Nat) : Char :=
  if n < 10 then Char.ofNat (48 + n) else Char.ofNat (87 + n)

/-- JSON escape of a single character inside a string literal. -/
def escChar (c : Char) : List Char :=
  if c = '"' then ['\\', '"']
  else if c = '\\' then ['\\', '\\']
  else if c = '\x08' then ['\\', 'b']
  else if c = '\t' then ['\\', 't']
  else if c = '\n' then ['\\', 'n']
  else if c = '\x0c' then ['\\', 'f']
  else if c = '\r' then ['\\', 'r']
  else if c.toNat < 32 then
    ['\\', 'u', '0', '0', hexDigit (c.toNat / 16), hexDigit (c.toNat % 16)]
  else [c]

/-- JSON escape of every character of a string body. -/
def escapeChars (l : List Char) : List Char := (l.map escChar).flatten

/-- JSON.stringify of an optional string: null serializes to "null", a string
serializes to its quoted escaped form. -/
def jsonStringifyStr (v : Option String) : String :=
  match v with
  | none => "null"
  | some s => ⟨'"' :: (escapeChars s.data ++ ['"'])⟩

/-- A string none of whose characters needs a JSON escape. -/
def escapeFreeB (s : String) : Bool := s.data.all (fun c => escChar c == [c])

/-! ## Collaboration manager (collaboration-manager.ts) -/

/-- Session status enum of CollaborationSession. -/
inductive SessionStatus
  | planning
  | executing
  | completed
  | failed
deriving DecidableEq, Repr

instance : BEq SessionStatus := ⟨fun a b => decide (a = b)⟩

/-- CollaborationSession record. -/
structure Session where
  id : String
  taskId : String
  agents : List String
  strategy : Strategy
  status : SessionStatus
  results : List CollabResult
  createdAt : Nat
  completedAt : Option Nat := none
deriving DecidableEq, Repr

/-- The environment of external collaborators: the agent registry (scores and
handles), the remote agents (responses of execute calls and their wall time),
and ambient configuration. The retry path calls the selected best agent once
per attempt (attemptResult, attemptWall indexed by attempt number); the
collaboration strategies call agents by id with a built prompt (collabResult,
collabWall). -/
structure Env where
  agentScores : Task → List AgentScore
  getAgent : String → Option AgentCfg
  availableAgents : List String
  maxConcurrent : Nat
  defaultOrgId : Option String
  attemptResult : Nat → Except String AgentResp
  attemptWall : Nat → Nat
  collabResult : String → String → Except String AgentResp
  collabWall : String → String → Nat
  freshSessionId : String

/-- CollaborationManager.selectAgentsForTask: top 3 scored candidates for
consensus, top 2 otherwise, resolved through the registry and keeping only the
ids with a live handle. -/
def numAgentsFor (strategy : Strategy) : Nat :=
  if strategy == .consensus then 3 else 2

/-- CollaborationManager.selectAgentsForTask (lines 335-351). -/
def selectAgentsForTask (env : Env) (task : Task) (strategy : Strategy) : List AgentCfg :=
  ((env.agentScores task).take (numAgentsFor strategy)).filterMap
    (fun s => env.getAgent s.agentId)

/-- CollaborationManager.createCollaborationSession (lines 72-99): fails when
fewer than 2 agents are selected, otherwise records a planning session. -/
def createCollaborationSession (env : Env) (task : Task) (strategy : Strategy)
    (sid : String) (now : Nat) : Except String Session :=
  let agents := selectAgentsForTask env task strategy
  if agents.length < 2 then
    .error "Need at least 2 agents for collaboration"
  else
    .ok { id := sid, taskId := task.id, agents := agents.map (fun a => a.id),
          strategy := strategy, status := .planning, results := [], createdAt := now }

/-- CollaborationManager.getTask (lines 388-397): the source returns a
hard-coded minimal task, so every strategy prompt is built from the literal
description "Task description" rather than the owning task. -/
def managerGetTask (taskId : String) : Task :=
  { id := taskId, description := "Task description",
    type := .implementation, status := .in_progress }

/-- CollaborationManager.buildSequentialPrompt (lines 353-367). -/
def buildSequentialPrompt (task : Task) (role : String) (previousResult : Option String) : String :=
  if role = "initiator" then
    task.description ++ "\n\nYou are the first agent. Provide your initial solution."
  else
    task.description ++ "\n\nPrevious agent's work:\n" ++ jsonStringifyStr previousResult ++
      "\n\nReview and improve the previous work. Provide:\n1. What works well\n2. What could be improved\n3. Your improved version"

/-- The per-analysis block of buildConsensusPrompt. -/
def consensusAnalysisBlock (i : Nat) (a : CollabResult) : String :=
  "Agent " ++ toString (i + 1) ++ " (" ++ a.agentName ++ "):\n" ++
    jsonStringifyStr (some a.output) ++ "\n"

/-- CollaborationManager.buildConsensusPrompt (lines 369-386). -/
def buildConsensusPrompt (task : Task) (analyses : List CollabResult) : String :=
  let blocks := (analyses.enum.map (fun p => consensusAnalysisBlock p.1 p.2))
  let analysesText := String.intercalate "\n\n" blocks
  task.description ++
    "\n\nMultiple agents have analyzed this task. Here are their perspectives:\n\n" ++
    analysesText ++
    "\n\nBuild a consensus solution that:\n1. Incorporates the best ideas from each analysis\n2. Addresses any conflicts between approaches\n3. Provides a unified, coherent solution"

/-- Loop body of CollaborationManager.executeSequential (lines 148-208).
Returns the successful results, the issued requests (agentId, prompt) in call
order, and the advanced clock; a thrown agent call aborts the whole strategy.
The loop index keeps counting over skipped (unregistered) agents, as the
source for-loop does. -/
def seqGo (env : Env) (task : Task) :
    List String → Nat → Option String → Nat →
    Except String (List CollabResult × List (String × String) × Nat)
  | [], _, _, t => .ok ([], [], t)
  | agentId :: rest, i, previousResult, t =>
    match env.getAgent agentId with
    | none => seqGo env task rest (i + 1) previousResult t
    | some agent =>
      let role := if i == 0 then "initiator" else "reviewer"
      let prompt := buildSequentialPrompt task role previousResult
      let wall := env.collabWall agentId prompt
      let t1 := t + wall
      match env.collabResult agentId prompt with
      | .error msg => .error msg
      | .ok resp =>
        if resp.success then
          let r : CollabResult :=
            { agentId := agent.id, agentName := agent.name, output := resp.result,
              duration := wall, timestamp := t1 }
          match seqGo env task rest (i + 1) (some resp.result) t1 with
          | .error msg => .error msg
          | .ok (rs, reqs, tf) => .ok (r :: rs, (agentId, prompt) :: reqs, tf)
        else
          match seqGo env task rest (i + 1) previousResult t1 with
          | .error msg => .error msg
          | .ok (rs, reqs, tf) => .ok (rs, (agentId, prompt) :: reqs, tf)

/-- CollaborationManager.executeSequential (lines 148-208). -/
def executeSequential (env : Env) (session : Session) (t : Nat) :
    Except String (List CollabResult × List (String × String) × Nat) :=
  let task := managerGetTask session.taskId
  seqGo env task session.agents 0 none t

/-- Loop body of CollaborationManager.executeParallel (lines 210-264): every
registered agent receives the identical prompt; Promise.all preserves the
order of the agents array; failed responses become nulls that are filtered
out; a rejected call rejects the whole strategy. All calls start at the same
instant, so each duration is the wall time of that call and the clock advances
by the maximum wall time. -/
def parGo (env : Env) (prompt : String) (t : Nat) :
    List String → Except String (List CollabResult × List (String × String) × Nat)
  | [] => .ok ([], [], 0)
  | agentId :: rest =>
    match env.getAgent agentId with
    | none => parGo env prompt t rest
    | some agent =>
      let wall := env.collabWall agentId prompt
      match env.collabResult agentId prompt with
      | .error msg => .error msg
      | .ok resp =>
        match parGo env prompt t rest with
        | .error msg => .error msg
        | .ok (rs, reqs, m) =>
          if resp.success then
            .ok ({ agentId := agent.id, agentName := agent.name, output := resp.result,
                   duration := wall, timestamp := t + wall } :: rs,
                 (agentId, prompt) :: reqs, max wall m)
          else
            .ok (rs, (agentId, prompt) :: reqs, max wall m)

/-- CollaborationManager.executeParallel (lines 210-264). -/
def executeParallel (env : Env) (session : Session) (t : Nat) :
    Except String (List CollabResult × List (String × String) × Nat) :=
  let task := managerGetTask session.taskId
  let prompt := task.description ++ "\n\nProvide your independent solution to this task."
  match parGo env prompt t session.agents with
  | .error msg => .error msg
  | .ok (rs, reqs, m) => .ok (rs, reqs, t + m)

/-- Phase 1 loop of CollaborationManager.executeConsensus (lines 275-300):
sequential awaited calls collecting the successful analyses. -/
def consGo (env : Env) (prompt : String) :
    List String → Nat → Except String (List CollabResult × List (String × String) × Nat)
  | [], t => .ok ([], [], t)
  | agentId :: rest, t =>
    match env.getAgent agentId with
    | none => consGo env prompt rest t
    | some agent =>
      let wall := env.collabWall agentId prompt
      let t1 := t + wall
      match env.collabResult agentId prompt with
      | .error msg => .error msg
      | .ok resp =>
        match consGo env prompt rest t1 with
        | .error msg => .error msg
        | .ok (rs, reqs, tf) =>
          if resp.success then
            .ok ({ agentId := agent.id, agentName := agent.name, output := resp.result,
                   duration := wall, timestamp := t1 } :: rs,
                 (agentId, prompt) :: reqs, tf)
          else
            .ok (rs, (agentId, prompt) :: reqs, tf)

/-- CollaborationManager.executeConsensus (lines 266-333): phase 1 analyses,
then the first-ranked agent synthesizes; that extra result is labeled with the
" (Consensus)" suffix. -/
def executeConsensus (env : Env) (session : Session) (t : Nat) :
    Except String (List CollabResult × List (String × String) × Nat) :=
  let task := managerGetTask session.taskId
  let prompt := task.description ++ "\n\nProvide your analysis and proposed approach."
  match consGo env prompt session.agents t with
  | .error msg => .error msg
  | .ok (analyses, reqs, t1) =>
    match session.agents.head? with
    | none => .ok (analyses, reqs, t1)
    | some leadId =>
      match env.getAgent leadId with
      | none => .ok (analyses, reqs, t1)
      | some leadAgent =>
        let consensusPrompt := buildConsensusPrompt task analyses
        let wall := env.collabWall leadId consensusPrompt
        let t2 := t1 + wall
        match env.collabResult leadId consensusPrompt with
        | .error msg => .error msg
        | .ok resp =>
          if resp.success then
            .ok (analyses ++
                  [{ agentId := leadAgent.id, agentName := leadAgent.name ++ " (Consensus)",
                     output := resp.result, duration := wall, timestamp := t2 }],
                 reqs ++ [(leadId, consensusPrompt)], t2)
          else
            .ok (analyses, reqs ++ [(leadId, consensusPrompt)], t2)

/-- CollaborationManager.executeCollaborationSession (lines 101-143), at the
session level: marks the session executing, dispatches on the strategy (the
switch default raises "Unknown strategy", reached by the runtime value
hierarchical), then on success marks the session completed with its results,
and on any raised error marks it failed and re-raises. -/
def executeCollaborationSession (env : Env) (session : Session) (t : Nat) :
    Session × Except String (List CollabResult) × Nat :=
  let session := { session with status := .executing }
  let run : Except String (List CollabResult × List (String × String) × Nat) :=
    match session.strategy with
    | .sequential => executeSequential env session t
    | .parallel => executeParallel env session t
    | .consensus => executeConsensus env session t
    | .hierarchical => .error "Unknown strategy: hierarchical"
  match run with
  | .ok (results, _, t1) =>
    ({ session with status := .completed, results := results, completedAt := some t1 },
     .ok results, t1)
  | .error msg =>
    ({ session with status := .failed }, .error msg, t)

/-! ## Task orchestrator (part_006) -/

/-- Observable actions of the orchestrator: repository status writes, emitted
lifecycle events, outbound agent calls of the retry path, and backoff sleeps. -/
inductive Event
  | statusUpdate (taskId : String) (status : TaskStatus)
  | emitted (name : String) (taskId : String)
  | agentCall (agentId : String) (taskId : String) (attempt : Nat)
  | slept (ms : Nat)
deriving DecidableEq, Repr

/-- The runningTasks map entry of part_006. -/
structure RunInfo where
  agentId : String
  startTime : Nat
  attempts : Nat
deriving DecidableEq, Repr

/-- The orchestrator state: the persisted task rows, the runningTasks map, the
executionLock set, the observable event trace and the clock. -/
structure OrchState where
  tasks : List Task
  runningTasks : List (String × RunInfo)
  executionLock : List String
  events : List Event
  time : Nat
deriving DecidableEq, Repr

/-- db.tasks.findById. -/
def findTask (tasks : List Task) (id : String) : Option Task :=
  tasks.find? (fun t => t.id == id)

/-- The optional field updates accepted by TaskRepository.updateTaskStatus. -/
structure StatusUpdates where
  output : Option TaskOutput := none
  error : Option String := none
  actualDuration : Option Nat := none
  startedAt : Option Nat := none
  completedAt : Option Nat := none
deriving DecidableEq, Repr

/-- Field-wise application of one updateTaskStatus call to a row: the status
and updatedAt always change, the optional fields only when provided. -/
def applyUpdates (t : Task) (status : TaskStatus) (u : StatusUpdates) (now : Nat) : Task :=
  { t with
    status := status
    updatedAt := now
    output := match u.output with | some o => some o | none => t.output
    error := match u.error with | some e => some e | none => t.error
    actualDuration := match u.actualDuration with | some d => some d | none => t.actualDuration
    startedAt := match u.startedAt with | some s => some s | none => t.startedAt
    completedAt := match u.completedAt with | some c => some c | none => t.completedAt }

/-- db.tasks.updateTaskStatus (part_012 lines 77-94) plus the trace entry. -/
def updateTaskStatus (st : OrchState) (id : String) (status : TaskStatus)
    (u : StatusUpdates) : OrchState :=
  { st with
    tasks := st.tasks.map (fun t => if t.id == id then applyUpdates t status u st.time else t)
    events := st.events ++ [Event.statusUpdate id status] }

/-- this.emit(name, payload) restricted to the task id carried by the payload. -/
def emitEv (st : OrchState) (name id : String) : OrchState :=
  { st with events := st.events ++ [Event.emitted name id] }

/-- runningTasks.delete(id). -/
def removeRunning (st : OrchState) (id : String) : OrchState :=
  { st with runningTasks := st.runningTasks.filter (fun p => p.1 ≠ id) }

/-- runningTasks.set(id, info). -/
def setRunning (st : OrchState) (id : String) (info : RunInfo) : OrchState :=
  { st with runningTasks := (id, info) :: st.runningTasks.filter (fun p => p.1 ≠ id) }

/-- runningTasks.has(id). -/
def isRunning (st : OrchState) (id : String) : Bool :=
  (st.runningTasks.find? (fun p => p.1 == id)).isSome

/-- The value returned by an executeTask that proceeded: the retry path returns
either the successful agent response or the literal failure summary object; the
collaboration path returns a success or failure object (it never throws). -/
inductive ExecResult
  | response (r : AgentResp)
  | failedSummary (taskId : String) (agentId : String) (error : String) (attempts : Nat)
  | collabSuccess (taskId : String) (syn : Synthesis) (duration : Nat)
  | collabFailure (taskId : String) (error : String) (duration : Nat)
deriving DecidableEq, Repr

/-- Parameters of TaskOrchestrator.createTask (part_006 lines 85-93).
The free-form context/metadata parameter is not modelled. -/
structure CreateTaskParams where
  prompt : String
  type : Option TaskType := none
  priority : Option Priority := none
  projectId : Option String := none
  dependencies : Option (List String) := none
  organizationId : String := ""
deriving DecidableEq, Repr

/-- TaskOrchestrator.generateTaskTitle (part_006 lines 415-418): first line of
the prompt truncated to 100 characters, with an ellipsis marker if truncated. -/
def generateTaskTitle (prompt : String) : String :=
  let firstLine : String := ⟨prompt.data.takeWhile (fun c => c ≠ '\n')⟩
  let title : String := ⟨firstLine.data.take 100⟩
  if title.length < firstLine.length then title ++ "..." else title

/-- TaskOrchestrator.createTask (part_006 lines 85-115): builds the row with
defaults, persists it, emits task:created, and returns it. No validation of
the description is performed by the source. -/
def createTask (env : Env) (st : OrchState) (params : CreateTaskParams)
    (newId : String) : OrchState × Task :=
  let task : Task :=
    { id := newId
      organizationId :=
        if params.organizationId = "" then env.defaultOrgId else some params.organizationId
      projectId := params.projectId
      type := params.type.getD .implementation
      title := generateTaskTitle params.prompt
      description := params.prompt
      dependencies := params.dependencies.getD []
      status := .pending
      priority := params.priority.getD .medium
      createdAt := st.time
      updatedAt := st.time }
  let st := { st with tasks := st.tasks ++ [task] }
  let st := emitEv st "task:created" task.id
  (st, task)

/-- The retry loop of TaskOrchestrator.executeTaskWithRetry (part_006 lines
193-268). fuel is the number of attempts still allowed (starts at
retryMaxAttempts); attempt is the 0-indexed attempt counter of the source loop.
Each iteration bumps runInfo.attempts, re-marks the task in_progress, performs
the agent call; a successful response commits the completed status (leaving the
runningTasks entry in place, as the source does); a failed response or a thrown
call records the error and, when attempts remain, resets the task to pending
and sleeps the backoff delay. Exhaustion commits the failed status with the
last error, emits task:failed and removes the runningTasks entry. -/
def retryLoop (env : Env) (agent : AgentCfg) (task : Task) :
    Nat → Nat → String → OrchState → OrchState × ExecResult
  | 0, _, lastError, st =>
    let st := updateTaskStatus st task.id .failed { error := some lastError }
    let st := emitEv st "task:failed" task.id
    let st := removeRunning st task.id
    (st, .failedSummary task.id agent.id lastError retryMaxAttempts)
  | fuel + 1, attempt, _lastError, st =>
    let st := { st with
      runningTasks := st.runningTasks.map
        (fun p => if p.1 == task.id then (p.1, { p.2 with attempts := attempt + 1 }) else p) }
    let st := updateTaskStatus st task.id .in_progress {}
    let st := { st with
      events := st.events ++ [Event.agentCall agent.id task.id attempt]
      time := st.time + env.attemptWall attempt }
    match env.attemptResult attempt with
    | .ok resp =>
      if resp.success then
        let startTime :=
          match st.runningTasks.find? (fun p => p.1 == task.id) with
          | some p => p.2.startTime
          | none => st.time
        let measured := st.time - startTime
        let st := updateTaskStatus st task.id .completed
          { output := some (.agentResult resp.result)
            actualDuration := some (resp.duration.getD measured)
            completedAt := some st.time }
        let st := emitEv st "task:completed" task.id
        (st, .response resp)
      else
        let lastError := jsOrStr resp.error "Agent returned failure"
        match fuel with
        | 0 => retryLoop env agent task 0 (attempt + 1) lastError st
        | fuel' + 1 =>
          let d := retryDelay attempt
          let st := updateTaskStatus st task.id .pending {}
          let st := { st with events := st.events ++ [Event.slept d], time := st.time + d }
          retryLoop env agent task (fuel' + 1) (attempt + 1) lastError st
    | .error msg =>
      match fuel with
      | 0 => retryLoop env agent task 0 (attempt + 1) msg st
      | fuel' + 1 =>
        let d := retryDelay attempt
        let st := updateTaskStatus st task.id .pending {}
        let st := { st with events := st.events ++ [Event.slept d], time := st.time + d }
        retryLoop env agent task (fuel' + 1) (attempt + 1) msg st

/-- TaskOrchestrator.executeTaskWithRetry (part_006 lines 148-268): scores the
agents, resolves the best handle (both lookups throw when empty/missing),
marks the task assigned, registers it in runningTasks, emits task:assigned and
enters the retry loop. The database agent-record foreign-key and metadata
bookkeeping of lines 155-182 touches only unmodelled fields. -/
def executeTaskWithRetry (env : Env) (st : OrchState) (task : Task) :
    OrchState × Except String ExecResult :=
  match env.agentScores task with
  | [] => (st, .error "No suitable agent found")
  | s :: _ =>
    match env.getAgent s.agentId with
    | none => (st, .error "Agent not found")
    | some agent =>
      let st := updateTaskStatus st task.id .assigned { startedAt := some st.time }
      let st := setRunning st task.id { agentId := agent.id, startTime := st.time, attempts := 0 }
      let st := emitEv st "task:assigned" task.id
      let r := retryLoop env agent task retryMaxAttempts 0 "" st
      (r.1, .ok r.2)

/-- TaskOrchestrator.synthesizeCollaborationResults (part_006 lines 399-413). -/
def synthesizeCollaborationResults (results : List CollabResult) : Synthesis :=
  { summary := "Task completed through multi-agent collaboration"
    results := results
    agentCount := (results.map (fun r => r.agentId)).eraseDups.length
    totalDuration := results.foldl (fun s r => s + r.duration) 0 }

/-- TaskOrchestrator.executeTaskWithCollaboration (part_006 lines 320-374):
marks the task in_progress, creates and executes a collaboration session, and
commits completed output or the failure; errors are caught and returned, never
re-thrown, and the finally block always removes the runningTasks entry. The
collaborationSessionId metadata write is not modelled. -/
def executeTaskWithCollaboration (env : Env) (st : OrchState) (task : Task) :
    OrchState × ExecResult :=
  let st := updateTaskStatus st task.id .in_progress { startedAt := some st.time }
  let startedAt := st.time
  let strategy := determineCollaborationStrategy task
  match createCollaborationSession env task strategy env.freshSessionId st.time with
  | .error msg =>
    let duration := st.time - startedAt
    let st := updateTaskStatus st task.id .failed
      { error := some msg, actualDuration := some duration }
    let st := emitEv st "task:error" task.id
    let st := removeRunning st task.id
    (st, .collabFailure task.id msg duration)
  | .ok session =>
    let st := emitEv st "collaboration:started" task.id
    match executeCollaborationSession env session st.time with
    | (_, .error msg, t1) =>
      let st := { st with time := t1 }
      let duration := t1 - startedAt
      let st := updateTaskStatus st task.id .failed
        { error := some msg, actualDuration := some duration }
      let st := emitEv st "task:error" task.id
      let st := removeRunning st task.id
      (st, .collabFailure task.id msg duration)
    | (_, .ok results, t1) =>
      let st := { st with time := t1 }
      let synthesized := synthesizeCollaborationResults results
      let duration := t1 - startedAt
      let st := updateTaskStatus st task.id .completed
        { output := some (.synthesized synthesized)
          actualDuration := some duration
          completedAt := some t1 }
      let st := emitEv st "task:completed" task.id
      let st := removeRunning st task.id
      (st, .collabSuccess task.id synthesized duration)

/-- TaskOrchestrator.executeTask (part_006 lines 118-145): a no-op returning
null when the execution lock is held or the task is tracked as running;
otherwise takes the lock, loads the task (missing ids throw), routes to the
collaboration or retry path, and releases the lock on every exit path. -/
def executeTask (env : Env) (st : OrchState) (taskId : String)
    (useCollaboration : Bool) : OrchState × Except String (Option ExecResult) :=
  if st.executionLock.contains taskId then (st, .ok none)
  else if isRunning st taskId then (st, .ok none)
  else
    let st1 := { st with executionLock := taskId :: st.executionLock }
    let res : OrchState × Except String (Option ExecResult) :=
      match findTask st1.tasks taskId with
      | none => (st1, .error "Task not found")
      | some task =>
        if useCollaboration || requiresCollaboration task then
          let r := executeTaskWithCollaboration env st1 task
          (r.1, .ok (some r.2))
        else
          let r := executeTaskWithRetry env st1 task
          (r.1, r.2.map some)
    ({ res.1 with executionLock := res.1.executionLock.erase taskId }, res.2)

/-- Dependency gate of the scheduling pass (part_006 lines 303-311): every
dependency id must resolve to a row whose status is completed; a missing row
gates the task as well. -/
def depsCompleted (tasks : List Task) (t : Task) : Bool :=
  t.dependencies.all (fun depId =>
    match findTask tasks depId with
    | some dep => dep.status == .completed
    | none => false)

/-- Loop of TaskOrchestrator.processPendingTasks (part_006 lines 296-317),
returning the ids the pass dispatches to executeTask. The fire-and-forget
dispatch mutates no task state synchronously, so the decisions depend only on
the state at the start of the pass. -/
def dispatchLoop (env : Env) (st : OrchState) : List Task → List String
  | [] => []
  | t :: rest =>
    if env.maxConcurrent ≤ st.runningTasks.length then []
    else if st.executionLock.contains t.id || isRunning st t.id then
      dispatchLoop env st rest
    else if depsCompleted st.tasks t then
      t.id :: dispatchLoop env st rest
    else
      dispatchLoop env st rest

/-- TaskOrchestrator.processPendingTasks (part_006 lines 286-317): the pass is
a no-op when no agent is registered or the running count has reached the
concurrency ceiling; otherwise it walks the pending rows in repository order
and dispatches the unlocked, non-running tasks whose dependencies are all
completed. -/
def processPendingTasks (env : Env) (st : OrchState) : List String :=
  if env.availableAgents.isEmpty then []
  else if env.maxConcurrent ≤ st.runningTasks.length then []
  else dispatchLoop env st (findPendingTasks st.tasks)

/-- TaskOrchestrator.getStats (part_006 lines 435-437): the running figure is
the size of the runningTasks map. -/
def getStats (st : OrchState) : Nat := st.runningTasks.length

/-! ## Helper lemmas -/

@[simp]
theorem updateTaskStatus_executionLock (st : OrchState) (id : String)
    (s : TaskStatus) (u : StatusUpdates) :
    (updateTaskStatus st id s u).executionLock = st.executionLock := rfl

@[simp]
theorem emitEv_executionLock (st : OrchState) (name id : String) :
    (emitEv st name id).executionLock = st.executionLock := rfl

@[simp]
theorem removeRunning_executionLock (st : OrchState) (id : String) :
    (removeRunning st id).executionLock = st.executionLock := rfl

@[simp]
theorem setRunning_executionLock (st : OrchState) (id : String) (info : RunInfo) :
    (setRunning st id info).executionLock = st.executionLock := rfl

theorem retryLoop_executionLock (env : Env) (agent : AgentCfg) (task : Task) :
    ∀ (fuel attempt : Nat) (e : String) (st : OrchState),
      (retryLoop env agent task fuel attempt e st).1.executionLock = st.executionLock := by
  intro fuel
  induction fuel with
  | zero =>
    intro attempt e st
    simp [retryLoop]
  | succ fuel ih =>
    intro attempt e st
    rw [retryLoop]
    rcases h : env.attemptResult attempt with msg | resp
    · cases fuel with
      | zero => simp [ih]
      | succ fuel' => simp [ih]
    · by_cases hs : resp.success
      · simp [hs]
      · cases fuel with
        | zero => simp [hs, ih]
        | succ fuel' => simp [hs, ih]

theorem executeTaskWithRetry_executionLock (env : Env) (st : OrchState) (task : Task) :
    (executeTaskWithRetry env st task).1.executionLock = st.executionLock := by
  rw [executeTaskWithRetry]
  split
  · rfl
  · split
    · rfl
    · simp [retryLoop_executionLock]

theorem executeTaskWithCollaboration_executionLock (env : Env) (st : OrchState) (task : Task) :
    (executeTaskWithCollaboration env st task).1.executionLock = st.executionLock := by
  rw [executeTaskWithCollaboration]
  split
  · simp
  · dsimp only
    split <;> simp

instance {ε α : Type} [DecidableEq ε] [DecidableEq α] : DecidableEq (Except ε α) := fun a b => by
  cases a <;> cases b
  case error.error e f => exact decidable_of_iff (e = f) (by simp)
  case error.ok e v => exact isFalse (by simp)
  case ok.error v e => exact isFalse (by simp)
  case ok.ok v w => exact decidable_of_iff (v = w) (by simp)

/-! ## Concrete fixtures shared by witnesses and counterexamples -/

/-- A registry with a single live agent a1 whose calls always succeed. -/
def envSingle : Env :=
  { agentScores := fun _ => [{ agentId := "a1" }]
    getAgent := fun id => if id == "a1" then some { id := "a1", name := "Agent One" } else none
    availableAgents := ["a1"]
    maxConcurrent := 10
    defaultOrgId := none
    attemptResult := fun _ => .ok { success := true, result := "done" }
    attemptWall := fun _ => 5
    collabResult := fun _ _ => .ok { success := true, result := "collab out" }
    collabWall := fun _ _ => 7
    freshSessionId := "sess-1" }

/-- A registry with two live agents a1 and a2. -/
def envTwo : Env :=
  { envSingle with
    agentScores := fun _ => [{ agentId := "a1" }, { agentId := "a2" }]
    getAgent := fun id =>
      if id == "a1" then some { id := "a1", name := "One" }
      else if id == "a2" then some { id := "a2", name := "Two" } else none
    availableAgents := ["a1", "a2"] }

/-- A plain medium-priority implementation task with no collaboration keyword. -/
def plainTask : Task := { id := "t1", description := "write a haiku" }

/-- A state holding only plainTask, with nothing locked or running. -/
def stPlain : OrchState :=
  { tasks := [plainTask], runningTasks := [], executionLock := [], events := [], time := 100 }

/-- A critical-priority task matching none of the strategy keyword rules. -/
def criticalTask : Task := { id := "tc", description := "urgent hotfix", priority := .critical }

/-- A state holding only criticalTask. -/
def stCrit : OrchState :=
  { tasks := [criticalTask], runningTasks := [], executionLock := [], events := [], time := 100 }

/-- A session carrying the runtime strategy value hierarchical. -/
def hierSession : Session :=
  { id := "s-h", taskId := "tc", agents := ["a1", "a2"], strategy := .hierarchical,
    status := .planning, results := [], createdAt := 0 }

/-! ## C5 — createTask and the empty description -/

/-- Claim C5 counterexample: calling createTask with an empty description does not
fail; it creates and stores a pending task whose description and title are
empty, so the claimed ValidationError rejection (and the claim that nothing is
stored) is false on the code. -/
theorem createTask_empty_description_creates_task :
    ((createTask envSingle stPlain { prompt := "" } "task-1").1.tasks =
      stPlain.tasks ++ [(createTask envSingle stPlain { prompt := "" } "task-1").2]) ∧
    (createTask envSingle stPlain { prompt := "" } "task-1").2.status = .pending ∧
    (createTask envSingle stPlain { prompt := "" } "task-1").2.description = "" ∧
    (createTask envSingle stPlain { prompt := "" } "task-1").2.title = "" ∧
    (findTask (createTask envSingle stPlain { prompt := "" } "task-1").1.tasks "task-1").isSome
      = true := by
  decide

/-- Claim C5 amended: createTask performs no validation of the description at all;
for every parameter record (the empty prompt included) it appends a new pending
task to the store, with the description taken verbatim from the prompt, the
generated title, the provided id, and a task:created emission. -/
theorem createTask_no_validation (env : Env) (st : OrchState)
    (params : CreateTaskParams) (newId : String) :
    (createTask env st params newId).1.tasks
        = st.tasks ++ [(createTask env st params newId).2] ∧
    (createTask env st params newId).2.status = .pending ∧
    (createTask env st params newId).2.description = params.prompt ∧
    (createTask env st params newId).2.title = generateTaskTitle params.prompt ∧
    (createTask env st params newId).2.id = newId ∧
    (createTask env st params newId).1.events
        = st.events ++ [Event.emitted "task:created" newId] := by
  simp [createTask, emitEv]

/-! ## C3 — collaboration strategy selection for critical tasks -/

/-- Claim C3: the consensus and parallel rules behave as claimed, but a critical
priority task that matches neither rule resolves to the strategy hierarchical,
not sequential; hierarchical is outside the strategies the collaboration
manager can execute, so executing such a session raises Unknown strategy, the
session ends failed, and an executeTask of the critical task marks it failed. -/
theorem determineStrategy_critical_returns_hierarchical :
    determineCollaborationStrategy criticalTask = .hierarchical ∧
    Strategy.hierarchical ≠ Strategy.sequential ∧
    determineCollaborationStrategy { id := "td", description := "plan the service", type := .design }
      = .consensus ∧
    determineCollaborationStrategy { id := "ta", description := "refine the architecture" }
      = .consensus ∧
    determineCollaborationStrategy { id := "tfb", description := "build frontend and backend parts" }
      = .parallel ∧
    determineCollaborationStrategy { id := "tp", description := "update the readme" }
      = .sequential ∧
    (executeCollaborationSession envTwo hierSession 0).1.status = .failed ∧
    (executeCollaborationSession envTwo hierSession 0).2.1
      = .error "Unknown strategy: hierarchical" ∧
    (findTask (executeTask envTwo stCrit "tc" false).1.tasks "tc").map Task.status
      = some .failed := by
  decide

/-! ## C10 — runningTasks after executeTask returns -/

/-- Claim C10: a successful single-agent execution returns with the task still
present in runningTasks (the retry path deletes the entry only on the
exhausted-failure path, and the collaboration path in its finally), so the
finished task keeps counting toward getStats and the concurrency ceiling,
contradicting the claimed absence invariant. -/
theorem completed_task_left_in_runningTasks :
    (executeTask envSingle stPlain "t1" false).2
        = .ok (some (.response { success := true, result := "done" })) ∧
    isRunning (executeTask envSingle stPlain "t1" false).1 "t1" = true ∧
    getStats (executeTask envSingle stPlain "t1" false).1 = 1 ∧
    (findTask (executeTask envSingle stPlain "t1" false).1.tasks "t1").map Task.status
        = some .completed := by
  decide

/-! ## C7 — ordering of the pending-task queue -/

/-- A mixed-priority fixture for the ordering witness. -/
def sortFixture : List Task :=
  [{ id := "a", priority := .low, createdAt := 1 },
   { id := "b", priority := .critical, createdAt := 5 },
   { id := "c", priority := .high, createdAt := 2 },
   { id := "d", priority := .critical, createdAt := 1 }]

/-- Claim C7: the pending set handed to the scheduler is exactly the pending rows,
and it is ordered by priority rank (critical 0, high 1, medium 2, low 3) with
creation time breaking ties among equal priorities. -/
theorem findPendingTasks_priority_creation_order (tasks : List Task) :
    (findPendingTasks tasks).Perm (tasks.filter (fun t => t.status == .pending)) ∧
    (∀ (i j : Fin (findPendingTasks tasks).length), i < j →
      taskLE ((findPendingTasks tasks).get i) ((findPendingTasks tasks).get j)) ∧
    priorityOrder .critical = 0 ∧ priorityOrder .high = 1 ∧
    priorityOrder .medium = 2 ∧ priorityOrder .low = 3 := by
  refine ⟨List.perm_insertionSort taskLE _, ?_, rfl, rfl, rfl, rfl⟩
  intro i j hij
  exact (List.sorted_insertionSort taskLE _).rel_get_of_lt hij

/-- Witness for C7 at the concrete fixture. -/
theorem findPendingTasks_priority_creation_order_witness :
    (findPendingTasks sortFixture).Perm
        (sortFixture.filter (fun t => t.status == .pending)) ∧
    taskLE ((findPendingTasks sortFixture).get ⟨0, by decide⟩)
           ((findPendingTasks sortFixture).get ⟨1, by decide⟩) := by
  have h := findPendingTasks_priority_creation_order sortFixture
  exact ⟨h.1, h.2.1 ⟨0, by decide⟩ ⟨1, by decide⟩ (by decide)⟩

/-! ## C6 — agent selection counts for collaboration sessions -/

/-- Claim C6: the manager requests 3 registry candidates for consensus and 2 for
sequential and parallel; session creation fails with the fewer-than-2-agents
validation error exactly when the selection yields fewer than 2 live agents,
and every created session carries at least 2 participants. -/
theorem collaborationSession_candidate_counts :
    (numAgentsFor .consensus = 3 ∧ numAgentsFor .sequential = 2 ∧ numAgentsFor .parallel = 2) ∧
    ∀ (env : Env) (task : Task) (strategy : Strategy) (sid : String) (now : Nat),
      (selectAgentsForTask env task strategy).length ≤ numAgentsFor strategy ∧
      (createCollaborationSession env task strategy sid now
          = .error "Need at least 2 agents for collaboration"
        ↔ (selectAgentsForTask env task strategy).length < 2) ∧
      (∀ s, createCollaborationSession env task strategy sid now = .ok s →
        2 ≤ s.agents.length ∧
        s.agents = (selectAgentsForTask env task strategy).map (fun a => a.id)) := by
  refine ⟨⟨rfl, rfl, rfl⟩, ?_⟩
  intro env task strategy sid now
  refine ⟨?_, ?_, ?_⟩
  · unfold selectAgentsForTask
    exact le_trans (List.length_filterMap_le _ _)
      (by simp [List.length_take_le])
  · unfold createCollaborationSession
    by_cases h : (selectAgentsForTask env task strategy).length < 2
    · simp [h]
    · simp [h]
  · intro s hs
    unfold createCollaborationSession at hs
    by_cases h : (selectAgentsForTask env task strategy).length < 2
    · simp [h] at hs
    · simp [h] at hs
      constructor
      · rw [← hs]
        simpa using Nat.le_of_not_lt h
      · rw [← hs]

/-- Witness for C6: one live candidate is rejected, two are accepted. -/
theorem collaborationSession_candidate_counts_witness :
    createCollaborationSession envSingle plainTask .sequential "s" 0
        = .error "Need at least 2 agents for collaboration" ∧
    ∃ s, createCollaborationSession envTwo plainTask .parallel "s2" 0 = .ok s ∧
      2 ≤ s.agents.length := by
  have h := collaborationSession_candidate_counts
  refine ⟨(h.2 envSingle plainTask .sequential "s" 0).2.1.mpr (by decide), ?_⟩
  exact ⟨_, rfl, ((h.2 envTwo plainTask .parallel "s2" 0).2.2 _ rfl).1⟩

/-! ## C4 — dependency gating of the scheduling pass -/

theorem dispatchLoop_mem (env : Env) (st : OrchState) :
    ∀ (l : List Task) (id : String), id ∈ dispatchLoop env st l →
      ∃ u, u ∈ l ∧ u.id = id ∧ depsCompleted st.tasks u = true ∧
        st.executionLock.contains u.id = false ∧ isRunning st u.id = false ∧
        st.runningTasks.length < env.maxConcurrent := by
  intro l
  induction l with
  | nil =>
    intro id h
    simp [dispatchLoop] at h
  | cons t rest ih =>
    intro id h
    by_cases hcap : env.maxConcurrent ≤ st.runningTasks.length
    · rw [dispatchLoop, if_pos hcap] at h
      exact absurd h (List.not_mem_nil id)
    · rw [dispatchLoop, if_neg hcap] at h
      by_cases hlock : (st.executionLock.contains t.id || isRunning st t.id) = true
      · rw [if_pos hlock] at h
        obtain ⟨u, h1, h2⟩ := ih id h
        exact ⟨u, List.mem_cons_of_mem t h1, h2⟩
      · rw [if_neg hlock] at h
        have hlock2 : st.executionLock.contains t.id = false ∧ isRunning st t.id = false := by
          constructor <;> simp_all
        by_cases hdeps : depsCompleted st.tasks t = true
        · rw [if_pos hdeps] at h
          rcases List.mem_cons.mp h with heq | htail
          · exact ⟨t, List.mem_cons_self t rest, heq.symm, hdeps, hlock2.1, hlock2.2,
              Nat.lt_of_not_le hcap⟩
          · obtain ⟨u, h1, h2⟩ := ih id htail
            exact ⟨u, List.mem_cons_of_mem t h1, h2⟩
        · rw [if_neg hdeps] at h
          obtain ⟨u, h1, h2⟩ := ih id h
          exact ⟨u, List.mem_cons_of_mem t h1, h2⟩

theorem processPendingTasks_mem (env : Env) (st : OrchState) :
    ∀ id, id ∈ processPendingTasks env st →
      env.availableAgents ≠ [] ∧
      st.runningTasks.length < env.maxConcurrent ∧
      ∃ u, u ∈ st.tasks ∧ u.id = id ∧ u.status = .pending ∧
        depsCompleted st.tasks u = true ∧
        st.executionLock.contains id = false ∧
        isRunning st id = false := by
  intro id h
  rw [processPendingTasks] at h
  by_cases hav : env.availableAgents.isEmpty = true
  · rw [if_pos hav] at h
    exact absurd h (List.not_mem_nil id)
  · rw [if_neg hav] at h
    by_cases hcap : env.maxConcurrent ≤ st.runningTasks.length
    · rw [if_pos hcap] at h
      exact absurd h (List.not_mem_nil id)
    · rw [if_neg hcap] at h
      obtain ⟨u, hu, huid, hdeps, hl, hr, hcap2⟩ := dispatchLoop_mem env st _ id h
      unfold findPendingTasks at hu
      have humem : u ∈ st.tasks.filter (fun t => t.status == .pending) :=
        (List.perm_insertionSort taskLE
          (st.tasks.filter (fun t => t.status == .pending))).mem_iff.mp hu
      have h2 := List.mem_filter.mp humem
      refine ⟨by simpa using hav, hcap2, u, h2.1, huid, by simpa using h2.2, hdeps, ?_, ?_⟩
      · rw [← huid]; exact hl
      · rw [← huid]; exact hr

/-- Claim C4: a scheduling pass dispatches an id only when some pending row carries
it with every dependency completed, the id is neither locked nor running, at
least one agent is registered and the running count is under the ceiling; in
particular a stored task with an incomplete dependency is never dispatched by
any pass, so it stays pending with no agent invoked for it no matter how many
passes run. -/
theorem processPendingTasks_dependency_gating (env : Env) (st : OrchState) :
    (∀ id, id ∈ processPendingTasks env st →
       env.availableAgents ≠ [] ∧
       st.runningTasks.length < env.maxConcurrent ∧
       ∃ u, u ∈ st.tasks ∧ u.id = id ∧ u.status = .pending ∧
         depsCompleted st.tasks u = true ∧
         st.executionLock.contains id = false ∧
         isRunning st id = false) ∧
    (∀ t, t ∈ st.tasks → (st.tasks.map Task.id).Nodup →
       depsCompleted st.tasks t = false →
       t.id ∉ processPendingTasks env st) := by
  refine ⟨processPendingTasks_mem env st, ?_⟩
  intro t ht hnodup hdeps hmem
  obtain ⟨_, _, u, hu, huid, _, hdepsu, _⟩ := processPendingTasks_mem env st t.id hmem
  have : u = t := List.inj_on_of_nodup_map hnodup hu ht huid
  rw [this] at hdepsu
  rw [hdeps] at hdepsu
  exact Bool.false_ne_true hdepsu

/-- A state with one task blocked on a missing dependency and one free task. -/
def stDeps : OrchState :=
  { tasks := [{ id := "x", dependencies := ["y"], priority := .low, createdAt := 1 },
              { id := "z", priority := .high, createdAt := 2 }],
    runningTasks := [], executionLock := [], events := [], time := 0 }

/-- Witness for C4: the task blocked on the missing dependency y is not in the
dispatch list of the concrete pass, and the dispatched id z satisfies the
gating conditions. -/
theorem processPendingTasks_dependency_gating_witness :
    "x" ∉ processPendingTasks envTwo stDeps ∧
    stDeps.runningTasks.length < envTwo.maxConcurrent := by
  have h := processPendingTasks_dependency_gating envTwo stDeps
  refine ⟨?_, (h.1 "z" (by decide)).2.1⟩
  have hx := h.2 { id := "x", dependencies := ["y"], priority := .low, createdAt := 1 }
    (by decide) (by decide) (by decide)
  exact hx

/-! ## C1 — the execution lock of executeTask -/

theorem executeTask_executionLock (env : Env) (st : OrchState) (taskId : String)
    (useCollab : Bool) :
    (executeTask env st taskId useCollab).1.executionLock = st.executionLock := by
  rw [executeTask]
  split
  · rfl
  · split
    · rfl
    · dsimp only
      split
      · simp
      · split
        · simp [executeTaskWithCollaboration_executionLock]
        · simp [executeTaskWithRetry_executionLock]

/-- Claim C1: if the execution lock already holds the id, or the task is tracked as
running, executeTask is a no-op returning null with the state unchanged — so
no task field changes, no agent is invoked and no event is emitted; and
whenever the call proceeds, the id is absent from the execution lock after the
call on every exit path, the thrown Task-not-found path included. -/
theorem executeTask_lock_guard (env : Env) (st : OrchState) (taskId : String)
    (useCollab : Bool) :
    ((st.executionLock.contains taskId = true ∨ isRunning st taskId = true) →
      executeTask env st taskId useCollab = (st, .ok none)) ∧
    (st.executionLock.contains taskId = false →
      (executeTask env st taskId useCollab).1.executionLock.contains taskId = false) := by
  constructor
  · rintro (h | h)
    · rw [executeTask, if_pos h]
    · by_cases h2 : st.executionLock.contains taskId = true
      · rw [executeTask, if_pos h2]
      · rw [executeTask, if_neg h2, if_pos h]
  · intro h
    rw [executeTask_executionLock]
    exact h

/-- Witness for C1: the locked call is a strict no-op, and a plain call leaves
the lock released. -/
theorem executeTask_lock_guard_witness :
    executeTask envSingle { stPlain with executionLock := ["t1"] } "t1" false
        = ({ stPlain with executionLock := ["t1"] }, .ok none) ∧
    (executeTask envSingle stPlain "t1" false).1.executionLock.contains "t1" = false := by
  refine ⟨(executeTask_lock_guard envSingle { stPlain with executionLock := ["t1"] }
      "t1" false).1 (Or.inl (by decide)), ?_⟩
  exact (executeTask_lock_guard envSingle stPlain "t1" false).2 (by decide)

/-! ## C8 — parallel strategy with a partial failure -/

/-- The prompt every parallel participant receives (built from the stub task
the manager resolves internally). -/
def parallelStubPrompt : String :=
  (managerGetTask "").description ++ "\n\nProvide your independent solution to this task."

/-- Claim C8: for a parallel session with two registered agents where exactly one
call fails, executing the session keeps only the successful result — the
result list has exactly that one entry — and the session still ends
completed, not failed. -/
theorem executeCollaborationSession_parallel_partial_failure
    (env : Env) (session : Session) (a b : String) (ca cb : AgentCfg)
    (ra rb : AgentResp) (t : Nat)
    (hstrat : session.strategy = .parallel)
    (hagents : session.agents = [a, b])
    (hga : env.getAgent a = some ca) (hgb : env.getAgent b = some cb)
    (hra : env.collabResult a parallelStubPrompt = .ok ra)
    (hrb : env.collabResult b parallelStubPrompt = .ok rb)
    (hone : (ra.success = true ∧ rb.success = false) ∨
            (ra.success = false ∧ rb.success = true)) :
    (executeCollaborationSession env session t).1.status = .completed ∧
    ∃ results, (executeCollaborationSession env session t).2.1 = .ok results ∧
      results.map (fun r => (r.agentId, r.output)) =
        if ra.success then [(ca.id, ra.result)] else [(cb.id, rb.result)] := by
  simp [parallelStubPrompt, managerGetTask] at hra hrb
  rcases hone with ⟨hsa, hsb⟩ | ⟨hsa, hsb⟩ <;>
    simp [executeCollaborationSession, hstrat, executeParallel, parGo, managerGetTask,
      hagents, hga, hgb, hra, hrb, hsa, hsb]

/-- An environment where agent a1 succeeds and agent a2 returns a failure. -/
def envParallelMixed : Env :=
  { envTwo with
    collabResult := fun id _ =>
      if id == "a1" then .ok { success := true, result := "win" }
      else .ok { success := false, error := some "lost" } }

/-- A two-agent parallel session fixture. -/
def parallelMixedSession : Session :=
  { id := "sp", taskId := "t", agents := ["a1", "a2"], strategy := .parallel,
    status := .planning, results := [], createdAt := 0 }

/-- Witness for C8 at a concrete environment where agent a1 succeeds and agent
a2 fails. -/
theorem executeCollaborationSession_parallel_partial_failure_witness :
    (executeCollaborationSession envParallelMixed parallelMixedSession 0).1.status
        = .completed ∧
    ∃ results,
      (executeCollaborationSession envParallelMixed parallelMixedSession 0).2.1
          = .ok results ∧
      results.map (fun r => (r.agentId, r.output)) = [("a1", "win")] := by
  have h := executeCollaborationSession_parallel_partial_failure envParallelMixed
    parallelMixedSession "a1" "a2" { id := "a1", name := "One" } { id := "a2", name := "Two" }
    { success := true, result := "win" } { success := false, error := some "lost" } 0
    rfl rfl (by decide) (by decide) (by decide) (by decide) (Or.inl ⟨rfl, rfl⟩)
  simpa using h

/-! ## C9 — sequential strategy pipeline -/

theorem escapeChars_id (l : List Char) (h : l.all (fun c => escChar c == [c]) = true) :
    escapeChars l = l := by
  induction l with
  | nil => rfl
  | cons c cs ih =>
    rw [List.all_cons, Bool.and_eq_true] at h
    have h1 : escChar c = [c] := by simpa using h.1
    show ((c :: cs).map escChar).flatten = c :: cs
    simp only [List.map_cons, List.flatten_cons, h1]
    have h2 : escapeChars cs = cs := ih h.2
    simp only [escapeChars] at h2
    simp [h2]

/-- The prompt the first sequential agent receives. -/
def seqInitiatorPrompt : String :=
  buildSequentialPrompt (managerGetTask "") "initiator" none

/-- The prompt a sequential reviewer receives, given the previous output. -/
def seqReviewerPrompt (prev : String) : String :=
  buildSequentialPrompt (managerGetTask "") "reviewer" (some prev)

theorem seqReviewerPrompt_contains (s : String) (h : escapeFreeB s = true) :
    ∃ pre post : List Char, (seqReviewerPrompt s).data = pre ++ s.data ++ post := by
  refine ⟨("Task description\n\nPrevious agent's work:\n").data ++ ['\"'],
    '\"' :: ("\n\nReview and improve the previous work. Provide:\n1. What works well\n2. What could be improved\n3. Your improved version").data, ?_⟩
  have hesc : escapeChars s.data = s.data := escapeChars_id s.data (by simpa [escapeFreeB] using h)
  simp [seqReviewerPrompt, buildSequentialPrompt, managerGetTask, jsonStringifyStr,
    String.data_append, hesc]

theorem seqReviewerPrompt_embeds_json (s : String) :
    ∃ pre post : List Char,
      (seqReviewerPrompt s).data = pre ++ (jsonStringifyStr (some s)).data ++ post := by
  refine ⟨("Task description\n\nPrevious agent's work:\n").data,
    ("\n\nReview and improve the previous work. Provide:\n1. What works well\n2. What could be improved\n3. Your improved version").data, ?_⟩
  simp [seqReviewerPrompt, buildSequentialPrompt, managerGetTask, String.data_append]

theorem prefixAt_iff : ∀ (sub l : List Char), prefixAt sub l = true ↔ ∃ t, sub ++ t = l
  | [], l => by simp [prefixAt]
  | c :: cs, [] => by simp [prefixAt]
  | c :: cs, d :: ds => by
    simp only [prefixAt, Bool.and_eq_true, beq_iff_eq]
    constructor
    · rintro ⟨rfl, hp⟩
      obtain ⟨t, ht⟩ := (prefixAt_iff cs ds).mp hp
      exact ⟨t, by simp [ht]⟩
    · rintro ⟨t, ht⟩
      injection ht with h1 h2
      exact ⟨h1, (prefixAt_iff cs ds).mpr ⟨t, h2⟩⟩

theorem subSearch_iff : ∀ (sub l : List Char),
    subSearch sub l = true ↔ ∃ pre post, l = pre ++ sub ++ post
  | sub, [] => by
    simp only [subSearch, prefixAt_iff]
    constructor
    · rintro ⟨t, ht⟩
      rw [List.append_eq_nil] at ht
      exact ⟨[], [], by simp [ht.1]⟩
    · rintro ⟨pre, post, h⟩
      have h2 := h.symm
      rw [List.append_assoc, List.append_eq_nil] at h2
      rw [List.append_eq_nil] at h2
      exact ⟨[], by simp [h2.2.1]⟩
  | sub, x :: rest => by
    simp only [subSearch, Bool.or_eq_true, prefixAt_iff]
    constructor
    · rintro (⟨t, ht⟩ | hr)
      · exact ⟨[], t, by simpa using ht.symm⟩
      · obtain ⟨pre, post, h⟩ := (subSearch_iff sub rest).mp hr
        exact ⟨x :: pre, post, by simp [h]⟩
    · rintro ⟨pre, post, h⟩
      cases pre with
      | nil => exact Or.inl ⟨post, by simpa using h.symm⟩
      | cons p ps =>
        simp only [List.cons_append] at h
        injection h with h1 h2
        exact Or.inr ((subSearch_iff sub rest).mpr ⟨ps, post, h2⟩)

/-- An environment whose two agents both succeed with distinct outputs. -/
def envSeq : Env :=
  { envTwo with
    collabResult := fun id _ =>
      .ok { success := true, result := if id == "a1" then "solution one" else "solution two" } }

/-- A two-agent sequential session fixture. -/
def seqSession : Session :=
  { id := "sq", taskId := "t", agents := ["a1", "a2"], strategy := .sequential,
    status := .planning, results := [], createdAt := 0 }

/-- An environment whose first agent succeeds with an output containing a
newline, a character JSON.stringify escapes. -/
def envSeqEsc : Env :=
  { envTwo with
    collabResult := fun id _ =>
      .ok { success := true, result := if id == "a1" then "line1\nline2" else "review done" } }

/-- Claim C9 counterexample: in a sequential session where both calls succeed
and the first output contains a newline, the prompt sent to the second agent
does not contain that output verbatim — JSON.stringify rewrites the newline
into the two characters backslash-n — so the claim as stated is false at this
input, although the run does return both results in call order. -/
theorem executeSequential_prompt_not_verbatim :
    executeSequential envSeqEsc seqSession 0 =
      .ok ([{ agentId := "a1", agentName := "One", output := "line1\nline2",
              duration := 7, timestamp := 7 },
            { agentId := "a2", agentName := "Two", output := "review done",
              duration := 7, timestamp := 14 }],
           [("a1", seqInitiatorPrompt), ("a2", seqReviewerPrompt "line1\nline2")], 14) ∧
    ¬ ∃ pre post : List Char,
        (seqReviewerPrompt "line1\nline2").data = pre ++ ("line1\nline2").data ++ post := by
  constructor
  · rfl
  · rintro ⟨pre, post, h⟩
    have hs : subSearch ("line1\nline2").data (seqReviewerPrompt "line1\nline2").data = true :=
      (subSearch_iff _ _).mpr ⟨pre, post, h⟩
    exact absurd hs (by decide)

/-- Claim C9 amended: a sequential session over registered agents [a, b] where
both calls succeed issues the initiator prompt to a and the reviewer prompt
built from the output of a to b, and returns the two results in call order;
the prompt sent to b embeds the JSON-serialized form of the output of a, which
contains that output verbatim exactly for outputs with no character that
JSON.stringify escapes. -/
theorem executeSequential_pipeline
    (env : Env) (session : Session) (a b : String) (ca cb : AgentCfg)
    (ra rb : AgentResp) (t : Nat)
    (hagents : session.agents = [a, b])
    (hga : env.getAgent a = some ca) (hgb : env.getAgent b = some cb)
    (hra : env.collabResult a seqInitiatorPrompt = .ok ra) (hsa : ra.success = true)
    (hrb : env.collabResult b (seqReviewerPrompt ra.result) = .ok rb)
    (hsb : rb.success = true) :
    ∃ results reqs tf,
      executeSequential env session t = .ok (results, reqs, tf) ∧
      results.map (fun r => (r.agentId, r.output)) = [(ca.id, ra.result), (cb.id, rb.result)] ∧
      reqs = [(a, seqInitiatorPrompt), (b, seqReviewerPrompt ra.result)] ∧
      (∃ pre post : List Char,
        (seqReviewerPrompt ra.result).data
          = pre ++ (jsonStringifyStr (some ra.result)).data ++ post) ∧
      (escapeFreeB ra.result = true →
        ∃ pre post : List Char,
          (seqReviewerPrompt ra.result).data = pre ++ ra.result.data ++ post) := by
  simp [seqInitiatorPrompt, seqReviewerPrompt, buildSequentialPrompt, managerGetTask,
    jsonStringifyStr] at hra hrb
  have hexec : executeSequential env session t =
      .ok ([{ agentId := ca.id, agentName := ca.name, output := ra.result,
              duration := env.collabWall a seqInitiatorPrompt,
              timestamp := t + env.collabWall a seqInitiatorPrompt },
            { agentId := cb.id, agentName := cb.name, output := rb.result,
              duration := env.collabWall b (seqReviewerPrompt ra.result),
              timestamp := t + env.collabWall a seqInitiatorPrompt
                + env.collabWall b (seqReviewerPrompt ra.result) }],
           [(a, seqInitiatorPrompt), (b, seqReviewerPrompt ra.result)],
           t + env.collabWall a seqInitiatorPrompt
             + env.collabWall b (seqReviewerPrompt ra.result)) := by
    simp [executeSequential, seqGo, hagents, hga, hgb, hra, hsa, hrb, hsb,
      seqInitiatorPrompt, seqReviewerPrompt, buildSequentialPrompt, managerGetTask,
      jsonStringifyStr]
  exact ⟨_, _, _, hexec, by simp, rfl, seqReviewerPrompt_embeds_json ra.result,
    fun hf => seqReviewerPrompt_contains ra.result hf⟩

/-- Witness for C9 at a concrete environment. -/
theorem executeSequential_pipeline_witness :
    ∃ results reqs tf,
      executeSequential envSeq seqSession 0 = .ok (results, reqs, tf) ∧
      results.map (fun r => (r.agentId, r.output))
          = [("a1", "solution one"), ("a2", "solution two")] ∧
      (∃ pre post : List Char,
        (seqReviewerPrompt "solution one").data
          = pre ++ (jsonStringifyStr (some "solution one")).data ++ post) ∧
      ∃ pre post : List Char,
        (seqReviewerPrompt "solution one").data = pre ++ "solution one".data ++ post := by
  obtain ⟨results, reqs, tf, h1, h2, h3, h4, h5⟩ :=
    executeSequential_pipeline envSeq seqSession "a1" "a2"
      { id := "a1", name := "One" } { id := "a2", name := "Two" }
      { success := true, result := "solution one" } { success := true, result := "solution two" }
      0 rfl (by decide) (by decide) (by decide) rfl (by decide) rfl
  exact ⟨results, reqs, tf, h1, h2, h4, h5 (by decide)⟩

/-! ## C2 — retry backoff and terminal commits -/

/-- The backoff delays recorded in a trace, in order. -/
def sleepsOf (evs : List Event) : List Nat :=
  evs.filterMap (fun e => match e with | .slept ms => some ms | _ => none)

/-- The number of outbound agent calls recorded in a trace. -/
def agentCallCount (evs : List Event) : Nat :=
  (evs.filter (fun e => match e with | .agentCall _ _ _ => true | _ => false)).length

/-- An attempt outcome the retry loop treats as a failure: a thrown call or a
response with success false. -/
def isFailOutcome (o : Except String AgentResp) : Bool :=
  match o with
  | .error _ => true
  | .ok r => !r.success

/-- The error string the retry loop records for a failed attempt outcome. -/
def lastErrMsg (o : Except String AgentResp) : String :=
  match o with
  | .error m => m
  | .ok r => jsOrStr r.error "Agent returned failure"

@[simp]
theorem sleepsOf_append (l1 l2 : List Event) :
    sleepsOf (l1 ++ l2) = sleepsOf l1 ++ sleepsOf l2 := by
  simp [sleepsOf]

@[simp]
theorem agentCallCount_append (l1 l2 : List Event) :
    agentCallCount (l1 ++ l2) = agentCallCount l1 + agentCallCount l2 := by
  simp [agentCallCount]

/-- The state changes shared by every iteration of the retry loop before the
agent call returns: the runInfo attempt bump, the in_progress status write,
the agent-call trace entry and the wall-clock advance. -/
def attemptStart (env : Env) (agent : AgentCfg) (task : Task) (attempt : Nat)
    (st : OrchState) : OrchState :=
  let st := { st with
    runningTasks := st.runningTasks.map
      (fun p => if p.1 == task.id then (p.1, { p.2 with attempts := attempt + 1 }) else p) }
  let st := updateTaskStatus st task.id .in_progress {}
  { st with
    events := st.events ++ [Event.agentCall agent.id task.id attempt]
    time := st.time + env.attemptWall attempt }

/-- The state after a failed attempt that still has retry budget: the pending
reset and the backoff sleep follow the shared iteration changes. -/
def afterFailSleep (env : Env) (agent : AgentCfg) (task : Task) (attempt : Nat)
    (st : OrchState) : OrchState :=
  let st := attemptStart env agent task attempt st
  let st := updateTaskStatus st task.id .pending {}
  { st with
    events := st.events ++ [Event.slept (retryDelay attempt)]
    time := st.time + retryDelay attempt }

/-- The state after a successful attempt: the completed commit and the
task:completed emission (the runningTasks entry is left in place, as in the
source). -/
def successEnd (env : Env) (agent : AgentCfg) (task : Task) (attempt : Nat)
    (resp : AgentResp) (st : OrchState) : OrchState :=
  let st := attemptStart env agent task attempt st
  let startTime :=
    match st.runningTasks.find? (fun p => p.1 == task.id) with
    | some p => p.2.startTime
    | none => st.time
  let st := updateTaskStatus st task.id .completed
    { output := some (.agentResult resp.result)
      actualDuration := some (resp.duration.getD (st.time - startTime))
      completedAt := some st.time }
  emitEv st "task:completed" task.id

theorem retryLoop_fail_step (env : Env) (agent : AgentCfg) (task : Task)
    (fuel attempt : Nat) (e : String) (st : OrchState)
    (h : isFailOutcome (env.attemptResult attempt) = true) :
    retryLoop env agent task (fuel + 2) attempt e st =
      retryLoop env agent task (fuel + 1) (attempt + 1)
        (lastErrMsg (env.attemptResult attempt))
        (afterFailSleep env agent task attempt st) := by
  rw [retryLoop]
  rcases ho : env.attemptResult attempt with msg | resp
  · simp [lastErrMsg, ho, afterFailSleep, attemptStart]
  · have hs : resp.success = false := by
      simp [isFailOutcome, ho] at h
      exact h
    simp [lastErrMsg, ho, hs, jsOrStr, afterFailSleep, attemptStart]

theorem retryLoop_fail_last (env : Env) (agent : AgentCfg) (task : Task)
    (attempt : Nat) (e : String) (st : OrchState)
    (h : isFailOutcome (env.attemptResult attempt) = true) :
    retryLoop env agent task 1 attempt e st =
      retryLoop env agent task 0 (attempt + 1)
        (lastErrMsg (env.attemptResult attempt))
        (attemptStart env agent task attempt st) := by
  conv_lhs => rw [show (1 : Nat) = 0 + 1 from rfl]
  rw [retryLoop]
  rcases ho : env.attemptResult attempt with msg | resp
  · simp [retryLoop, lastErrMsg, ho, attemptStart]
  · have hs : resp.success = false := by
      simp [isFailOutcome, ho] at h
      exact h
    simp [retryLoop, lastErrMsg, ho, hs, jsOrStr, attemptStart]

theorem retryLoop_success_step (env : Env) (agent : AgentCfg) (task : Task)
    (fuel attempt : Nat) (e : String) (st : OrchState) (resp : AgentResp)
    (h : env.attemptResult attempt = .ok resp) (hs : resp.success = true) :
    retryLoop env agent task (fuel + 1) attempt e st =
      (successEnd env agent task attempt resp st, .response resp) := by
  rw [retryLoop]
  simp [h, hs, successEnd, attemptStart]

theorem findTask_map_preserving (tasks : List Task) (id id2 : String) (g : Task → Task)
    (hg : ∀ t, (g t).id = t.id) :
    findTask (tasks.map fun t => if t.id == id then g t else t) id2 =
      (findTask tasks id2).map (fun t => if t.id == id then g t else t) := by
  induction tasks with
  | nil => rfl
  | cons t rest ih =>
    have hgid : (if t.id == id then g t else t).id = t.id := by
      by_cases h : (t.id == id) = true
      · rw [if_pos h, hg]
      · rw [if_neg h]
    have hsc : ((if t.id == id then g t else t).id == id2) = (t.id == id2) := by
      rw [hgid]
    simp only [List.map_cons, findTask, List.find?] at ih ⊢
    rw [hsc]
    cases hc : (t.id == id2)
    · exact ih
    · rfl

@[simp]
theorem applyUpdates_id (t : Task) (s : TaskStatus) (u : StatusUpdates) (n : Nat) :
    (applyUpdates t s u n).id = t.id := rfl

@[simp]
theorem findTask_updateTaskStatus (st : OrchState) (id id2 : String) (s : TaskStatus)
    (u : StatusUpdates) :
    findTask (updateTaskStatus st id s u).tasks id2 =
      (findTask st.tasks id2).map
        (fun t => if t.id == id then applyUpdates t s u st.time else t) := by
  unfold updateTaskStatus
  exact findTask_map_preserving st.tasks id id2 _ (fun t => rfl)

@[simp]
theorem emitEv_tasks (st : OrchState) (n i : String) : (emitEv st n i).tasks = st.tasks := rfl

@[simp]
theorem removeRunning_tasks (st : OrchState) (i : String) :
    (removeRunning st i).tasks = st.tasks := rfl

@[simp]
theorem setRunning_tasks (st : OrchState) (i : String) (info : RunInfo) :
    (setRunning st i info).tasks = st.tasks := rfl

@[simp]
theorem emitEv_events (st : OrchState) (n i : String) :
    (emitEv st n i).events = st.events ++ [Event.emitted n i] := rfl

@[simp]
theorem removeRunning_events (st : OrchState) (i : String) :
    (removeRunning st i).events = st.events := rfl

@[simp]
theorem setRunning_events (st : OrchState) (i : String) (info : RunInfo) :
    (setRunning st i info).events = st.events := rfl

@[simp]
theorem updateTaskStatus_events (st : OrchState) (id : String) (s : TaskStatus)
    (u : StatusUpdates) :
    (updateTaskStatus st id s u).events = st.events ++ [Event.statusUpdate id s] := rfl

@[simp]
theorem sleepsOf_single_statusUpdate (id : String) (s : TaskStatus) :
    sleepsOf [Event.statusUpdate id s] = [] := rfl

@[simp]
theorem sleepsOf_single_emitted (n i : String) : sleepsOf [Event.emitted n i] = [] := rfl

@[simp]
theorem sleepsOf_single_agentCall (a i : String) (k : Nat) :
    sleepsOf [Event.agentCall a i k] = [] := rfl

@[simp]
theorem sleepsOf_single_slept (ms : Nat) : sleepsOf [Event.slept ms] = [ms] := rfl

@[simp]
theorem agentCallCount_single_statusUpdate (id : String) (s : TaskStatus) :
    agentCallCount [Event.statusUpdate id s] = 0 := rfl

@[simp]
theorem agentCallCount_single_emitted (n i : String) :
    agentCallCount [Event.emitted n i] = 0 := rfl

@[simp]
theorem agentCallCount_single_agentCall (a i : String) (k : Nat) :
    agentCallCount [Event.agentCall a i k] = 1 := rfl

@[simp]
theorem agentCallCount_single_slept (ms : Nat) : agentCallCount [Event.slept ms] = 0 := rfl

@[simp]
theorem attemptStart_events (env : Env) (agent : AgentCfg) (task : Task) (k : Nat)
    (st : OrchState) :
    (attemptStart env agent task k st).events =
      st.events ++ [Event.statusUpdate task.id .in_progress]
        ++ [Event.agentCall agent.id task.id k] := by
  simp [attemptStart]

@[simp]
theorem afterFailSleep_events (env : Env) (agent : AgentCfg) (task : Task) (k : Nat)
    (st : OrchState) :
    (afterFailSleep env agent task k st).events =
      st.events ++ [Event.statusUpdate task.id .in_progress]
        ++ [Event.agentCall agent.id task.id k]
        ++ [Event.statusUpdate task.id .pending]
        ++ [Event.slept (retryDelay k)] := by
  simp [afterFailSleep]

@[simp]
theorem successEnd_events (env : Env) (agent : AgentCfg) (task : Task) (k : Nat)
    (resp : AgentResp) (st : OrchState) :
    (successEnd env agent task k resp st).events =
      st.events ++ [Event.statusUpdate task.id .in_progress]
        ++ [Event.agentCall agent.id task.id k]
        ++ [Event.statusUpdate task.id .completed]
        ++ [Event.emitted "task:completed" task.id] := by
  simp [successEnd]

@[simp]
theorem attemptStart_tasks (env : Env) (agent : AgentCfg) (task : Task) (k : Nat)
    (st : OrchState) :
    findTask (attemptStart env agent task k st).tasks task.id =
      (findTask st.tasks task.id).map
        (fun t => if t.id == task.id then applyUpdates t .in_progress {} st.time else t) := by
  simp [attemptStart]

theorem retryLoop_zero (env : Env) (agent : AgentCfg) (task : Task)
    (attempt : Nat) (e : String) (st : OrchState) :
    retryLoop env agent task 0 attempt e st =
      (removeRunning (emitEv (updateTaskStatus st task.id .failed { error := some e })
        "task:failed" task.id) task.id,
       .failedSummary task.id agent.id e retryMaxAttempts) := rfl

theorem retryLoop_fail_3 (env : Env) (agent : AgentCfg) (task : Task)
    (attempt : Nat) (e : String) (st : OrchState)
    (h : isFailOutcome (env.attemptResult attempt) = true) :
    retryLoop env agent task 3 attempt e st =
      retryLoop env agent task 2 (attempt + 1)
        (lastErrMsg (env.attemptResult attempt))
        (afterFailSleep env agent task attempt st) :=
  retryLoop_fail_step env agent task 1 attempt e st h

theorem retryLoop_fail_2 (env : Env) (agent : AgentCfg) (task : Task)
    (attempt : Nat) (e : String) (st : OrchState)
    (h : isFailOutcome (env.attemptResult attempt) = true) :
    retryLoop env agent task 2 attempt e st =
      retryLoop env agent task 1 (attempt + 1)
        (lastErrMsg (env.attemptResult attempt))
        (afterFailSleep env agent task attempt st) :=
  retryLoop_fail_step env agent task 0 attempt e st h

theorem retryLoop_success_3 (env : Env) (agent : AgentCfg) (task : Task)
    (attempt : Nat) (e : String) (st : OrchState) (resp : AgentResp)
    (h : env.attemptResult attempt = .ok resp) (hs : resp.success = true) :
    retryLoop env agent task 3 attempt e st =
      (successEnd env agent task attempt resp st, .response resp) :=
  retryLoop_success_step env agent task 2 attempt e st resp h hs

theorem retryLoop_success_2 (env : Env) (agent : AgentCfg) (task : Task)
    (attempt : Nat) (e : String) (st : OrchState) (resp : AgentResp)
    (h : env.attemptResult attempt = .ok resp) (hs : resp.success = true) :
    retryLoop env agent task 2 attempt e st =
      (successEnd env agent task attempt resp st, .response resp) :=
  retryLoop_success_step env agent task 1 attempt e st resp h hs

theorem retryLoop_success_1 (env : Env) (agent : AgentCfg) (task : Task)
    (attempt : Nat) (e : String) (st : OrchState) (resp : AgentResp)
    (h : env.attemptResult attempt = .ok resp) (hs : resp.success = true) :
    retryLoop env agent task 1 attempt e st =
      (successEnd env agent task attempt resp st, .response resp) :=
  retryLoop_success_step env agent task 0 attempt e st resp h hs

/-- The state executeTaskWithRetry reaches before entering the retry loop:
assigned status with startedAt, the runningTasks registration, and the
task:assigned emission. -/
def stAssigned (st : OrchState) (task : Task) (agent : AgentCfg) : OrchState :=
  emitEv (setRunning (updateTaskStatus st task.id .assigned { startedAt := some st.time })
    task.id { agentId := agent.id, startTime := st.time, attempts := 0 })
    "task:assigned" task.id

theorem executeTaskWithRetry_unfold (env : Env) (st : OrchState) (task : Task)
    (s : AgentScore) (rest : List AgentScore) (agent : AgentCfg)
    (hscores : env.agentScores task = s :: rest)
    (hagent : env.getAgent s.agentId = some agent) :
    executeTaskWithRetry env st task =
      ((retryLoop env agent task 3 0 "" (stAssigned st task agent)).1,
       .ok (retryLoop env agent task 3 0 "" (stAssigned st task agent)).2) := by
  rw [executeTaskWithRetry, hscores]
  dsimp only
  rw [hagent]
  rfl

/-- Claim C2: retryDelay yields exactly 1000ms before attempt 2 and 2000ms before
attempt 3, every delay is capped at 30000ms; when the three attempts all fail,
the executed trace records exactly the sleeps 1000 then 2000 and three agent
calls, the task row ends failed carrying the last error, and the call returns
the failure summary (no further delay or attempt); when attempt k+1 is the
first to succeed, exactly the first k backoff delays were slept and the task
row ends completed with the output, actualDuration and completedAt committed. -/
theorem retry_policy_backoff_and_terminal :
    (retryDelay 0 = 1000 ∧ retryDelay 1 = 2000 ∧ ∀ k, retryDelay k ≤ 30000) ∧
    ∀ (env : Env) (st : OrchState) (task : Task) (s : AgentScore)
      (rest : List AgentScore) (agent : AgentCfg),
      env.agentScores task = s :: rest →
      env.getAgent s.agentId = some agent →
      (findTask st.tasks task.id).isSome = true →
      ((∀ k, k < 3 → isFailOutcome (env.attemptResult k) = true) →
        sleepsOf (executeTaskWithRetry env st task).1.events
            = sleepsOf st.events ++ [1000, 2000] ∧
        agentCallCount (executeTaskWithRetry env st task).1.events
            = agentCallCount st.events + 3 ∧
        (executeTaskWithRetry env st task).2
            = .ok (.failedSummary task.id agent.id (lastErrMsg (env.attemptResult 2)) 3) ∧
        ∃ t', findTask (executeTaskWithRetry env st task).1.tasks task.id = some t' ∧
          t'.status = .failed ∧ t'.error = some (lastErrMsg (env.attemptResult 2))) ∧
      (∀ k resp, k < 3 → (∀ j, j < k → isFailOutcome (env.attemptResult j) = true) →
        env.attemptResult k = .ok resp → resp.success = true →
        sleepsOf (executeTaskWithRetry env st task).1.events
            = sleepsOf st.events ++ (List.range k).map retryDelay ∧
        (executeTaskWithRetry env st task).2 = .ok (.response resp) ∧
        ∃ t', findTask (executeTaskWithRetry env st task).1.tasks task.id = some t' ∧
          t'.status = .completed ∧ t'.output = some (.agentResult resp.result) ∧
          t'.completedAt.isSome = true ∧ t'.actualDuration.isSome = true) := by
  refine ⟨⟨by decide, by decide, fun k => min_le_right _ _⟩, ?_⟩
  intro env st task s rest agent hscores hagent hsome
  have hu := executeTaskWithRetry_unfold env st task s rest agent hscores hagent
  rcases hrow : findTask st.tasks task.id with _ | t0
  · rw [hrow] at hsome
    exact absurd hsome (by decide)
  have hpred : (t0.id == task.id) = true := by
    have hfind : st.tasks.find? (fun t => t.id == task.id) = some t0 := hrow
    exact @List.find?_some Task (fun t => t.id == task.id) t0 st.tasks hfind
  have hpred2 : t0.id = task.id := by simpa using hpred
  constructor
  · intro hfail
    have h0 := hfail 0 (by omega)
    have h1 := hfail 1 (by omega)
    have h2 := hfail 2 (by omega)
    rw [retryLoop_fail_3 _ _ _ _ _ _ h0, retryLoop_fail_2 _ _ _ _ _ _ h1,
        retryLoop_fail_last _ _ _ _ _ _ h2, retryLoop_zero] at hu
    rw [hu]
    refine ⟨?_, ?_, rfl, ?_⟩
    · simp [stAssigned, retryDelay, sleepsOf, List.filterMap_cons]
    · simp [stAssigned, agentCallCount, List.filter_cons]
    · simp [stAssigned, afterFailSleep, attemptStart, hrow, hpred2, applyUpdates]
  · intro k resp hk hjfail hok hsucc
    rcases k with _ | _ | _ | k4
    · rw [retryLoop_success_3 _ _ _ _ _ _ _ hok hsucc] at hu
      rw [hu]
      refine ⟨?_, rfl, ?_⟩
      · simp [stAssigned, sleepsOf, List.filterMap_cons]
      · simp [stAssigned, successEnd, attemptStart, hrow, hpred2, applyUpdates]
    · have h0 := hjfail 0 (by omega)
      rw [retryLoop_fail_3 _ _ _ _ _ _ h0,
          retryLoop_success_2 _ _ _ _ _ _ _ hok hsucc] at hu
      rw [hu]
      refine ⟨?_, rfl, ?_⟩
      · simp [stAssigned, sleepsOf, List.filterMap_cons]
        decide
      · simp [stAssigned, successEnd, afterFailSleep, attemptStart, hrow, hpred2, applyUpdates]
    · have h0 := hjfail 0 (by omega)
      have h1 := hjfail 1 (by omega)
      rw [retryLoop_fail_3 _ _ _ _ _ _ h0, retryLoop_fail_2 _ _ _ _ _ _ h1,
          retryLoop_success_1 _ _ _ _ _ _ _ hok hsucc] at hu
      rw [hu]
      refine ⟨?_, rfl, ?_⟩
      · simp [stAssigned, sleepsOf, List.filterMap_cons]
        decide
      · simp [stAssigned, successEnd, afterFailSleep, attemptStart, hrow, hpred2, applyUpdates]
    · omega

/-- An environment whose agent a1 fails every attempt with the error boom. -/
def envFail : Env :=
  { envSingle with
    attemptResult := fun _ => .ok { success := false, error := some "boom" } }

/-- Witness for C2: with every attempt failing, the concrete run sleeps
exactly 1000ms then 2000ms, makes three calls, and ends failed with the last
error. -/
theorem retry_policy_backoff_and_terminal_witness :
    sleepsOf (executeTaskWithRetry envFail stPlain plainTask).1.events
        = sleepsOf stPlain.events ++ [1000, 2000] ∧
    agentCallCount (executeTaskWithRetry envFail stPlain plainTask).1.events
        = agentCallCount stPlain.events + 3 ∧
    (executeTaskWithRetry envFail stPlain plainTask).2
        = .ok (.failedSummary plainTask.id "a1" (lastErrMsg (envFail.attemptResult 2)) 3) ∧
    ∃ t', findTask (executeTaskWithRetry envFail stPlain plainTask).1.tasks plainTask.id
            = some t' ∧
      t'.status = .failed ∧ t'.error = some (lastErrMsg (envFail.attemptResult 2)) :=
  (retry_policy_backoff_and_terminal.2 envFail stPlain plainTask
    { agentId := "a1" } [] { id := "a1", name := "Agent One" } rfl (by decide) (by decide)).1
    (fun k hk => by
      show isFailOutcome (Except.ok { success := false, error := some "boom" }) = true
      decide)

end LoomIQ
